import Mathlib

/-!
Verification development for the interactive-fluid-demo repository.

We shallowly embed the simulation core (`SimBase.py`) and the key-driven
control options (`Options.py`) and prove properties of the embedding.

Modelling conventions:
- numpy float arithmetic is modelled over `ℚ` (exact rational arithmetic);
  the transcendental HSV encoding is modelled over `ℝ`;
- a `rows×cols` numpy array becomes a total function `ℕ → ℕ → α`
  (indices past the shape are junk, updates only touch in-array indices
  exactly as the numpy slices do);
- Python `int(x)` truncation toward zero is `pyIntQ`;
- Python slice endpoints (including negative indices) are `pySliceStop`
  and `pySliceStart`;
- a Python statement that can raise (an `assert`, a division by zero)
  is modelled by an `Option` result, `none` meaning the exception.
-/

/-- Python `int(x)`: truncation toward zero, on rationals. -/
def pyIntQ (q : ℚ) : ℤ := if q < 0 then -⌊-q⌋ else ⌊q⌋

/-- Stop index of the Python slice `a[:w]` on an array of length `n`
(negative `w` counts from the end, as in Python). -/
def pySliceStop (n : ℕ) (w : ℤ) : ℤ := if w < 0 then max (w + n) 0 else min w n

/-- Start index of the Python slice `a[st:]` on an array of length `n`
(negative `st` counts from the end, as in Python). -/
def pySliceStart (n : ℕ) (st : ℤ) : ℤ := if st < 0 then max (st + n) 0 else min st n

/-- Membership of index `i` in the Python slice `a[:w]` of an array of length `n`. -/
def inStop (n : ℕ) (w : ℤ) (i : ℕ) : Bool := decide ((i : ℤ) < pySliceStop n w)

/-- Membership of index `i` in the Python slice `a[st:]` of an array of length `n`. -/
def inFrom (n : ℕ) (st : ℤ) (i : ℕ) : Bool :=
  decide (pySliceStart n st ≤ (i : ℤ) ∧ i < n)

/-- Membership in the union of the two edge slices `a[:w]` and `a[-w:]`,
the band written by `set_velocity`, and (with `w = 1`) the one-cell wall
strips written by `set_boundary`. -/
def inBand (n : ℕ) (w : ℤ) (i : ℕ) : Bool := inStop n w i || inFrom n (-w) i

/-- Modelled from the spec: the external Density Field (`DensityField.py` is
not part of the analysed sources). The spec only fixes its interface —
`add_density(band_width, flow_direction, num_streams, smoke_amount)` and
`reset()`, where `reset` restores the just-constructed state — so we model
it by its construction shape together with the observable trace of
`add_density` calls; `reset` returns the just-constructed field. -/
structure DensityField where
  shape : ℕ × ℕ
  calls : List (ℤ × ℤ × ℤ × ℚ)
  deriving DecidableEq

/-- Modelled from the spec: a just-constructed Density Field (no injections yet). -/
def DensityField.init (shape : ℕ × ℕ) : DensityField := ⟨shape, []⟩

/-- Modelled from the spec: `reset()` restores the just-constructed state. -/
def DensityField.reset (d : DensityField) : DensityField := DensityField.init d.shape

/-- Modelled from the spec: `add_density` records one injection with its
arguments `(band_width, flow_direction, num_streams, smoke_amount)`. -/
def DensityField.add_density (d : DensityField) (w dir ns : ℤ) (sa : ℚ) : DensityField :=
  { d with calls := d.calls ++ [(w, dir, ns, sa)] }

/-- State of a `SimBase` object (`SimBase.py`, `__init__`): camera shape,
simulation shape, mode flag, velocity field `_v` (component, row, col),
boundary mask `_b`, cached complement `_notb`, discretisation `_dx`,
density field `_d`, the `_flowwidth`/`_flowdirection` fields set in
`__init__`, and the HSV render buffer `_hsv_field` (channel, row, col).
The scratch render buffers (`_float3tmp` etc.) hold no semantic state and
are omitted. -/
structure SimBase where
  cam_shape : ℕ × ℕ
  shape : ℕ × ℕ
  mode : ℤ
  v : Fin 2 → ℕ → ℕ → ℚ
  b : ℕ → ℕ → Bool
  notb : ℕ → ℕ → Bool
  dx : ℚ × ℚ
  d : DensityField
  flowwidth : ℤ
  flowdirection : ℤ
  hsv : Fin 3 → ℕ → ℕ → ℕ

/-- `SimBase.__init__(cam_shape, res_multiplier)`: shape is
`(int(cam_shape[0]*m), int(cam_shape[1]*m))`, mode 0, zero velocity,
all-false boundary with its cached complement, `dx = [4/3, 1] / shape`,
fresh density field, and an HSV buffer whose saturation channel is 255. -/
def SimBase.init (cam_shape : ℕ × ℕ) (res_multiplier : ℚ) : SimBase :=
  let shape : ℕ × ℕ :=
    ((pyIntQ ((cam_shape.1 : ℚ) * res_multiplier)).toNat,
     (pyIntQ ((cam_shape.2 : ℚ) * res_multiplier)).toNat)
  let b0 : ℕ → ℕ → Bool := fun _ _ => false
  { cam_shape := cam_shape
    shape := shape
    mode := 0
    v := fun _ _ _ => 0
    b := b0
    notb := fun i j => ! b0 i j
    dx := ((4 / 3 : ℚ) / (shape.1 : ℚ), (1 : ℚ) / (shape.2 : ℚ))
    d := DensityField.init shape
    flowwidth := 0
    flowdirection := 0
    hsv := fun c _ _ => if c = 1 then 255 else 0 }

/-- The `mode` property setter of `SimBase`. -/
def SimBase.setMode (s : SimBase) (value : ℤ) : SimBase := { s with mode := value }

/-- The wall-placement branch of `set_boundary` (`SimBase.py` lines 54-73):
given the flow direction it forces the matching pair of one-cell edge
strips of the mask to `True` and zeroes both velocity components there.
Directions 0 and 2 write the column strips `[:, :1]` and `[:, -1:]`;
directions 1 and 3 write the row strips `[:1, :]` and `[-1:, :]`; any
other direction matches no branch and writes nothing. -/
def setBoundaryWalls (dir : ℤ) (shape : ℕ × ℕ)
    (b : ℕ → ℕ → Bool) (v : Fin 2 → ℕ → ℕ → ℚ) :
    (ℕ → ℕ → Bool) × (Fin 2 → ℕ → ℕ → ℚ) :=
  if dir = 0 then
    (fun i j => if inBand shape.2 1 j then true else b i j,
     fun c i j => if inBand shape.2 1 j then 0 else v c i j)
  else if dir = 1 then
    (fun i j => if inBand shape.1 1 i then true else b i j,
     fun c i j => if inBand shape.1 1 i then 0 else v c i j)
  else if dir = 2 then
    (fun i j => if inBand shape.2 1 j then true else b i j,
     fun c i j => if inBand shape.2 1 j then 0 else v c i j)
  else if dir = 3 then
    (fun i j => if inBand shape.1 1 i then true else b i j,
     fun c i j => if inBand shape.1 1 i then 0 else v c i j)
  else (b, v)

/-- `SimBase.set_boundary(cell_ocupation, boundary_velocity, flow_direction)`:
copies the occupancy mask into `_b`, imposes the supplied velocity at the
masked cells, adds the containment walls for the flow direction, and
finally recomputes the cached complement `_notb`. -/
def SimBase.set_boundary (s : SimBase) (cell_ocupation : ℕ → ℕ → Bool)
    (boundary_velocity : Fin 2 → ℕ → ℕ → ℚ) (flow_direction : ℤ) : SimBase :=
  let v1 : Fin 2 → ℕ → ℕ → ℚ :=
    fun c i j => if cell_ocupation i j then boundary_velocity c i j else s.v c i j
  let bw := setBoundaryWalls flow_direction s.shape cell_ocupation v1
  { s with b := bw.1, v := bw.2, notb := fun i j => ! bw.1 i j }

/-- The injection band width computed by `set_velocity`
(`SimBase.py` line 82): `flowwidth = 1 + int(dt * flow_speed / self._dx[0])`.
Note the source always divides by `_dx[0]`, whatever the flow direction. -/
def flowwidthOf (dx0 : ℚ) (dt flow_speed : ℚ) : ℤ :=
  1 + pyIntQ (dt * flow_speed / dx0)

/-- The velocity writes of `set_velocity` (`SimBase.py` lines 85-104):
directions 0/2 write `±flow_speed` into component 0 and `0` into
component 1 on the row bands `[:w]` and `[-w:]`; directions 1/3 write the
column bands with the roles of the components exchanged; any other
direction matches no branch and writes nothing. -/
def setVelocityV (dir : ℤ) (shape : ℕ × ℕ) (w : ℤ) (flow_speed : ℚ)
    (v : Fin 2 → ℕ → ℕ → ℚ) : Fin 2 → ℕ → ℕ → ℚ :=
  if dir = 0 then
    fun c i j => if inBand shape.1 w i then (if c = 0 then flow_speed else 0) else v c i j
  else if dir = 1 then
    fun c i j => if inBand shape.2 w j then (if c = 0 then 0 else flow_speed) else v c i j
  else if dir = 2 then
    fun c i j => if inBand shape.1 w i then (if c = 0 then -flow_speed else 0) else v c i j
  else if dir = 3 then
    fun c i j => if inBand shape.2 w j then (if c = 0 then 0 else -flow_speed) else v c i j
  else v

/-- `SimBase.set_velocity(dt, flow_speed, flow_direction, num_streams,
smoke_amount)`: computes the band width, applies the inflow velocity on
the matching edge bands, and, when the mode is 0, forwards
`(flowwidth, flow_direction, num_streams, smoke_amount)` to the density
field's `add_density`. -/
def SimBase.set_velocity (s : SimBase) (dt flow_speed : ℚ)
    (flow_direction num_streams : ℤ) (smoke_amount : ℚ) : SimBase :=
  let flowwidth := flowwidthOf s.dx.1 dt flow_speed
  { s with
    v := setVelocityV flow_direction s.shape flowwidth flow_speed s.v
    d := if s.mode = 0 then
           s.d.add_density flowwidth flow_direction num_streams smoke_amount
         else s.d }

/-- `SimBase.get_velocity()`: returns the live velocity field. -/
def SimBase.get_velocity (s : SimBase) : Fin 2 → ℕ → ℕ → ℚ := s.v

/-- `SimBase.reset()`: zeroes the velocity field and resets the density
field; nothing else is touched. -/
def SimBase.reset (s : SimBase) : SimBase :=
  { s with v := fun _ _ _ => 0, d := s.d.reset }

/-- `np.arctan2 y x` over the reals, via the complex argument of `x + y*I`. -/
noncomputable def arctan2R (y x : ℝ) : ℝ := Complex.arg ⟨x, y⟩

/-- Python `int(x)` truncation toward zero, on reals. -/
noncomputable def pyIntR (x : ℝ) : ℤ := if x < 0 then -⌊-x⌋ else ⌊x⌋

/-- The numpy cast of a float into a `uint8` cell: truncate toward zero,
then wrap modulo 256. -/
noncomputable def toUInt8R (x : ℝ) : ℕ := ((pyIntR x) % 256).toNat

/-- Hue channel of `get_velocity_field_as_HSV` (`SimBase.py` line 122):
`180 * (arctan2(-v0, -v1) / (2π) + 0.5)`, stored as a byte. -/
noncomputable def hueByte (v0 v1 : ℚ) : ℕ :=
  toUInt8R (180 * (arctan2R (-(v0 : ℝ)) (-(v1 : ℝ)) / (2 * Real.pi) + 0.5))

/-- Value channel of `get_velocity_field_as_HSV` (`SimBase.py` line 124):
`255 * (v0² + v1²) ^ power`, stored as a byte. -/
noncomputable def valueByte (v0 v1 : ℚ) (power : ℝ) : ℕ :=
  toUInt8R (255 * (((v0 : ℝ)) ^ 2 + ((v1 : ℝ)) ^ 2) ^ power)

/-- `SimBase.get_velocity_field_as_HSV(power)`: recomputes the hue and
value channels of the cached HSV buffer from the current velocity field,
leaves the saturation channel alone, and returns the buffer. -/
noncomputable def SimBase.get_velocity_field_as_HSV (s : SimBase) (power : ℝ) :
    SimBase × (Fin 3 → ℕ → ℕ → ℕ) :=
  let hsv1 : Fin 3 → ℕ → ℕ → ℕ := fun c i j =>
    if c = 0 then hueByte (s.v 0 i j) (s.v 1 i j)
    else if c = 2 then valueByte (s.v 0 i j) (s.v 1 i j) power
    else s.hsv c i j
  ({ s with hsv := hsv1 }, hsv1)

/-- State of a `CycleOption` (`Options.py`). -/
structure CycleOption where
  name : String
  key : Char
  current : ℤ
  options : List String
  deriving DecidableEq

/-- `CycleOption.__init__(name, key, options, current=0)`: stores its
arguments. It performs no validation, so construction never fails; the
`Option` result records that no exception is possible here. -/
def CycleOption.init (name : String) (key : Char) (options : List String)
    (current : ℤ) : Option CycleOption :=
  some ⟨name, key, current, options⟩

/-- `CycleOption.poll_for_key(key)`: on the matching key, advances
`current` cyclically modulo the number of options and reports `True`;
otherwise reports `False`. With an empty option list the modulus is zero
and Python raises `ZeroDivisionError`, modelled as `none`. -/
def CycleOption.poll_for_key (o : CycleOption) (key : ℕ) :
    Option (Bool × CycleOption) :=
  if key = o.key.toNat then
    if o.options.length = 0 then none
    else some (true, { o with current := (o.current + 1) % (o.options.length : ℤ) })
  else some (false, o)

/-- State of a `RangeOption` (`Options.py`). -/
structure RangeOption where
  name : String
  keys : Char × Char
  current : ℚ
  range : ℚ × ℚ
  step : ℚ
  deriving DecidableEq

/-- `RangeOption.__init__(name, keys, range, step, current=0)`: asserts
`len(keys) == 2` and `len(range) == 2` (an `AssertionError`, modelled as
`none`, otherwise), then stores its arguments with `current` clamped into
the range. -/
def RangeOption.init (name : String) (keys : List Char) (range : List ℚ)
    (step current : ℚ) : Option RangeOption :=
  match keys, range with
  | [k0, k1], [r0, r1] => some ⟨name, (k0, k1), max (min current r1) r0, (r0, r1), step⟩
  | _, _ => none

/-- `RangeOption.poll_for_key(key)`: the first key steps `current` down
(clamped at the range minimum), the second steps it up (clamped at the
range maximum); anything else reports `False`. -/
def RangeOption.poll_for_key (o : RangeOption) (key : ℕ) : Bool × RangeOption :=
  if key = o.keys.1.toNat then
    (true, { o with current := max (o.current - o.step) o.range.1 })
  else if key = o.keys.2.toNat then
    (true, { o with current := min (o.current + o.step) o.range.2 })
  else (false, o)

/-- Claimed injection band width, written from the spec's words for
comparison with the source's `flowwidthOf`:
`w = 1 + floor(dt * flow_speed / dx[axis])` where the axis is 0 for
flow directions 0 and 2, and 1 for flow directions 1 and 3. -/
def specInjectionWidth (s : SimBase) (dt flow_speed : ℚ) (flow_direction : ℤ) : ℤ :=
  1 + ⌊dt * flow_speed / (if flow_direction = 0 ∨ flow_direction = 2 then s.dx.1 else s.dx.2)⌋

/-- A concrete `SimBase` state used by witnesses: the state produced by
`SimBase.init (2, 2) 1`, written out literally (shape `(2, 2)`,
`dx = ((4/3)/2, 1/2) = (2/3, 1/2)`). -/
def sampleSim : SimBase :=
  { cam_shape := (2, 2)
    shape := (2, 2)
    mode := 0
    v := fun _ _ _ => 0
    b := fun _ _ => false
    notb := fun _ _ => true
    dx := (2 / 3, 1 / 2)
    d := DensityField.init (2, 2)
    flowwidth := 0
    flowdirection := 0
    hsv := fun c _ _ => if c = 1 then 255 else 0 }

/-- A concrete all-true occupancy mask. -/
def occAll : ℕ → ℕ → Bool := fun _ _ => true

/-- A concrete all-false occupancy mask. -/
def occNone : ℕ → ℕ → Bool := fun _ _ => false

/-- A concrete boundary velocity field, constant 1 in both components. -/
def bvOne : Fin 2 → ℕ → ℕ → ℚ := fun _ _ _ => 1

/-- Helper: Python truncation toward zero is monotone on rationals. -/
theorem pyIntQ_mono {a b : ℚ} (h : a ≤ b) : pyIntQ a ≤ pyIntQ b := by
  unfold pyIntQ
  by_cases ha : a < 0 <;> by_cases hb : b < 0
  · rw [if_pos ha, if_pos hb]
    have := Int.floor_mono (neg_le_neg h)
    omega
  · rw [if_pos ha, if_neg hb]
    have hfa : (0 : ℤ) ≤ ⌊-a⌋ := Int.floor_nonneg.mpr (by linarith)
    have hfb : (0 : ℤ) ≤ ⌊b⌋ := Int.floor_nonneg.mpr (by linarith)
    omega
  · linarith
  · rw [if_neg ha, if_neg hb]
    exact Int.floor_mono h

/-- Helper: the first cell is in the one-cell edge band of a non-empty axis. -/
theorem edge_band_zero {n : ℕ} (hn : 0 < n) : inBand n 1 0 = true := by
  simp [inBand, inStop, inFrom, pySliceStop, pySliceStart]
  omega

/-- Helper: the last cell is in the one-cell edge band of a non-empty axis. -/
theorem edge_band_last {n : ℕ} (hn : 0 < n) : inBand n 1 (n - 1) = true := by
  simp [inBand, inStop, inFrom, pySliceStop, pySliceStart]
  omega

/-- C1: immediately after any `set_boundary` call — for every occupancy
mask, boundary velocity field, and flow direction value — the cached
complement `notb` equals the cell-wise logical negation of the boundary
mask `b`, at every cell. -/
theorem set_boundary_notb_complement (s : SimBase) (cell_ocupation : ℕ → ℕ → Bool)
    (boundary_velocity : Fin 2 → ℕ → ℕ → ℚ) (flow_direction : ℤ) (i j : ℕ) :
    (s.set_boundary cell_ocupation boundary_velocity flow_direction).notb i j
      = ! (s.set_boundary cell_ocupation boundary_velocity flow_direction).b i j := rfl

/-- C3: from every state, `reset()` leaves the velocity field all zeros
and the density field in its just-constructed state, while the boundary
mask `b` and its cached complement `notb` are exactly unchanged. -/
theorem reset_frame_effect (s : SimBase) :
    s.reset.v = (fun _ _ _ => 0)
  ∧ s.reset.d = DensityField.init s.d.shape
  ∧ s.reset.b = s.b
  ∧ s.reset.notb = s.notb := ⟨rfl, rfl, rfl, rfl⟩

/-- C10: a freshly constructed `SimBase` is in mode 0, has an all-zero
velocity field, an all-false boundary mask whose cached complement is all
true (so the `notb` invariant holds at construction), and an HSV
saturation channel already equal to the constant 255. -/
theorem init_initial_state (cam_shape : ℕ × ℕ) (res_multiplier : ℚ) :
    (SimBase.init cam_shape res_multiplier).mode = 0
  ∧ (SimBase.init cam_shape res_multiplier).v = (fun _ _ _ => 0)
  ∧ (SimBase.init cam_shape res_multiplier).b = (fun _ _ => false)
  ∧ (∀ i j, (SimBase.init cam_shape res_multiplier).notb i j = true)
  ∧ (∀ i j, (SimBase.init cam_shape res_multiplier).notb i j
        = ! (SimBase.init cam_shape res_multiplier).b i j)
  ∧ (∀ i j, (SimBase.init cam_shape res_multiplier).hsv 1 i j = 255) :=
  ⟨rfl, rfl, rfl, fun _ _ => rfl, fun _ _ => rfl, fun _ _ => rfl⟩

/-- C6: for every flow direction (recognized or not), `num_streams` and
`smoke_amount`, a `set_velocity` call forwards exactly one `add_density`
call with arguments `(flowwidth, flow_direction, num_streams,
smoke_amount)` to the density field when the mode is 0, and leaves the
density field untouched when the mode is nonzero. -/
theorem set_velocity_density_forwarding (s : SimBase) (dt flow_speed : ℚ)
    (flow_direction num_streams : ℤ) (smoke_amount : ℚ) :
    (s.mode = 0 →
      (s.set_velocity dt flow_speed flow_direction num_streams smoke_amount).d.calls
        = s.d.calls
            ++ [(flowwidthOf s.dx.1 dt flow_speed, flow_direction, num_streams, smoke_amount)])
  ∧ (s.mode ≠ 0 →
      (s.set_velocity dt flow_speed flow_direction num_streams smoke_amount).d = s.d) := by
  constructor
  · intro h
    simp [SimBase.set_velocity, h, DensityField.add_density]
  · intro h
    simp [SimBase.set_velocity, h]

/-- Witness for C6 at a concrete state: in mode 0 the call is forwarded,
after switching to mode 1 the density field is untouched. -/
theorem set_velocity_density_forwarding_witness :
    (sampleSim.set_velocity 1 1 0 1 1).d.calls
      = sampleSim.d.calls ++ [(flowwidthOf sampleSim.dx.1 1 1, 0, 1, 1)]
  ∧ ((sampleSim.setMode 1).set_velocity 1 1 0 1 1).d = (sampleSim.setMode 1).d :=
  ⟨(set_velocity_density_forwarding sampleSim 1 1 0 1 1).1 rfl,
   (set_velocity_density_forwarding (sampleSim.setMode 1) 1 1 0 1 1).2 (by decide)⟩

/-- C8 (with the implicit domain assumptions that the timestep is
nonnegative and the discretisation step positive): for fixed `dt`, the
injection band width computed by `set_velocity` is monotone
non-decreasing in `flow_speed`. -/
theorem injection_width_monotone (s : SimBase) (dt s1 s2 : ℚ)
    (hdt : 0 ≤ dt) (hdx : 0 < s.dx.1) (h : s1 ≤ s2) :
    flowwidthOf s.dx.1 dt s1 ≤ flowwidthOf s.dx.1 dt s2 := by
  unfold flowwidthOf
  have hmul : dt * s1 ≤ dt * s2 := mul_le_mul_of_nonneg_left h hdt
  have hdiv : dt * s1 / s.dx.1 ≤ dt * s2 / s.dx.1 := by gcongr
  exact add_le_add_left (pyIntQ_mono hdiv) 1

/-- Witness for C8 at a concrete state: width at speed 1 is at most width
at speed 2. -/
theorem injection_width_monotone_witness :
    flowwidthOf sampleSim.dx.1 1 1 ≤ flowwidthOf sampleSim.dx.1 1 2 :=
  injection_width_monotone sampleSim 1 1 2 (by norm_num)
    (by norm_num [sampleSim]) (by norm_num)

/-- Helper: evaluation of the source band width on the sample state:
`1 + int(1 * 1 / (2/3)) = 1 + int(3/2) = 2`. -/
theorem flowwidthOf_sample : flowwidthOf (2 / 3 : ℚ) 1 1 = 2 := by
  unfold flowwidthOf pyIntQ
  rw [if_neg (by norm_num)]
  rw [show ((1 : ℚ) * 1 / (2 / 3)) = 3 / 2 by norm_num]
  rw [show ⌊(3 / 2 : ℚ)⌋ = 1 from by rw [Int.floor_eq_iff]; norm_num]
  norm_num

/-- Helper: evaluation of the spec's band-width formula on the sample
state for flow direction 1: `1 + floor(1 * 1 / (1/2)) = 1 + 2 = 3`. -/
theorem specInjectionWidth_sample : specInjectionWidth sampleSim 1 1 1 = 3 := by
  unfold specInjectionWidth
  rw [if_neg (by norm_num)]
  rw [show ((1 : ℚ) * 1 / sampleSim.dx.2) = 2 by norm_num [sampleSim]]
  rw [show ⌊(2 : ℚ)⌋ = 2 from by rw [Int.floor_eq_iff]; norm_num]
  norm_num

/-- C2 counterexample: on the sample state (`dx = (2/3, 1/2)`), with
`dt = 1`, `flow_speed = 1` and `flow_direction = 1`, the source computes
and forwards band width `1 + int(1/dx[0]) = 2`, while the claimed formula
`1 + floor(1/dx[axis])` with axis 1 gives 3 — so `set_velocity` does not
compute the width from the axis associated with the flow direction. -/
theorem set_velocity_width_axis_counterexample :
    (sampleSim.set_velocity 1 1 1 1 1).d.calls = [(2, 1, 1, 1)]
  ∧ specInjectionWidth sampleSim 1 1 1 = 3
  ∧ ¬ ((sampleSim.set_velocity 1 1 1 1 1).d.calls
        = [(specInjectionWidth sampleSim 1 1 1, 1, 1, 1)]) := by
  have hw : (sampleSim.set_velocity 1 1 1 1 1).d.calls = [(2, 1, 1, 1)] := by
    have hm : sampleSim.mode = 0 := rfl
    have hdx : sampleSim.dx.1 = 2 / 3 := rfl
    simp [SimBase.set_velocity, hm, DensityField.add_density, hdx, flowwidthOf_sample,
      sampleSim, DensityField.init]
  refine ⟨hw, specInjectionWidth_sample, ?_⟩
  rw [hw, specInjectionWidth_sample]
  simp

/-- C2 amended: for every flow direction (the width does not depend on it),
and for a nonnegative `dt * flow_speed` and positive `dx[0]`, the band
width forwarded by `set_velocity` in mode 0 is
`1 + floor(dt * flow_speed / dx[0])` — always axis 0's discretisation
step, never axis 1's. -/
theorem set_velocity_width_uses_dx0 (s : SimBase) (dt flow_speed : ℚ)
    (flow_direction num_streams : ℤ) (smoke_amount : ℚ)
    (hq : 0 ≤ dt * flow_speed) (hdx : 0 < s.dx.1) (hm : s.mode = 0) :
    (s.set_velocity dt flow_speed flow_direction num_streams smoke_amount).d.calls
      = s.d.calls
          ++ [(1 + ⌊dt * flow_speed / s.dx.1⌋, flow_direction, num_streams, smoke_amount)] := by
  have h0 : 0 ≤ dt * flow_speed / s.dx.1 := div_nonneg hq hdx.le
  simp [SimBase.set_velocity, hm, DensityField.add_density, flowwidthOf, pyIntQ,
    not_lt.mpr h0]

/-- Witness for the amended C2 at a concrete state and direction 0. -/
theorem set_velocity_width_uses_dx0_witness :
    (sampleSim.set_velocity 1 1 0 1 1).d.calls
      = sampleSim.d.calls ++ [(1 + ⌊(1 * 1 / sampleSim.dx.1 : ℚ)⌋, 0, 1, 1)] :=
  set_velocity_width_uses_dx0 sampleSim 1 1 0 1 1 (by norm_num)
    (by norm_num [sampleSim]) rfl

/-- C4: after `set_boundary` with flow direction 0 or 2, both one-cell
edge strips along axis 1 (columns `0` and `cols-1`) are marked boundary
with both velocity components zero, whatever the supplied occupancy mask
says there; directions 1 and 3 force the row strips instead; and
directions 0 and 2 (symmetrically 1 and 3) produce identical results. -/
theorem set_boundary_wall_placement (s : SimBase) (occ : ℕ → ℕ → Bool)
    (bv : Fin 2 → ℕ → ℕ → ℚ) (h1 : 0 < s.shape.1) (h2 : 0 < s.shape.2) (dir : ℤ) :
    ((dir = 0 ∨ dir = 2) → ∀ (i : ℕ) (c : Fin 2),
        (s.set_boundary occ bv dir).b i 0 = true
      ∧ (s.set_boundary occ bv dir).b i (s.shape.2 - 1) = true
      ∧ (s.set_boundary occ bv dir).v c i 0 = 0
      ∧ (s.set_boundary occ bv dir).v c i (s.shape.2 - 1) = 0)
  ∧ ((dir = 1 ∨ dir = 3) → ∀ (j : ℕ) (c : Fin 2),
        (s.set_boundary occ bv dir).b 0 j = true
      ∧ (s.set_boundary occ bv dir).b (s.shape.1 - 1) j = true
      ∧ (s.set_boundary occ bv dir).v c 0 j = 0
      ∧ (s.set_boundary occ bv dir).v c (s.shape.1 - 1) j = 0)
  ∧ s.set_boundary occ bv 0 = s.set_boundary occ bv 2
  ∧ s.set_boundary occ bv 1 = s.set_boundary occ bv 3 := by
  refine ⟨?_, ?_, ?_, ?_⟩
  · rintro (rfl | rfl) i c <;>
      exact ⟨by simp [SimBase.set_boundary, setBoundaryWalls, edge_band_zero h2],
        by simp [SimBase.set_boundary, setBoundaryWalls, edge_band_last h2],
        by simp [SimBase.set_boundary, setBoundaryWalls, edge_band_zero h2],
        by simp [SimBase.set_boundary, setBoundaryWalls, edge_band_last h2]⟩
  · rintro (rfl | rfl) j c <;>
      exact ⟨by simp [SimBase.set_boundary, setBoundaryWalls, edge_band_zero h1],
        by simp [SimBase.set_boundary, setBoundaryWalls, edge_band_last h1],
        by simp [SimBase.set_boundary, setBoundaryWalls, edge_band_zero h1],
        by simp [SimBase.set_boundary, setBoundaryWalls, edge_band_last h1]⟩
  · rfl
  · rfl

/-- Witness for C4 at a concrete state: direction 0 walls the first
column, direction 1 walls the last row, and directions 0 and 2 agree. -/
theorem set_boundary_wall_placement_witness :
    (sampleSim.set_boundary occNone bvOne 0).b 0 0 = true
  ∧ (sampleSim.set_boundary occNone bvOne 1).b 1 0 = true
  ∧ sampleSim.set_boundary occNone bvOne 0 = sampleSim.set_boundary occNone bvOne 2 :=
  ⟨((set_boundary_wall_placement sampleSim occNone bvOne (by decide) (by decide) 0).1
      (Or.inl rfl) 0 0).1,
   ((set_boundary_wall_placement sampleSim occNone bvOne (by decide) (by decide) 1).2.1
      (Or.inl rfl) 0 0).2.1,
   (set_boundary_wall_placement sampleSim occNone bvOne (by decide) (by decide) 0).2.2.1⟩

/-- C5 counterexample: on the sample state (boundary mask all false,
velocity all zero), `set_boundary` with the out-of-range direction 5, an
all-true occupancy mask and a boundary velocity of 1 does change both the
boundary mask and the velocity field: the mask copy and the masked
velocity write happen before the direction is examined. -/
theorem set_boundary_out_of_range_counterexample :
    ¬ ((sampleSim.set_boundary occAll bvOne 5).b = sampleSim.b
        ∧ (sampleSim.set_boundary occAll bvOne 5).v = sampleSim.v) := by
  rintro ⟨hb, -⟩
  have h : (sampleSim.set_boundary occAll bvOne 5).b 0 0 = sampleSim.b 0 0 := by rw [hb]
  have htrue : (sampleSim.set_boundary occAll bvOne 5).b 0 0 = true := rfl
  have hfalse : sampleSim.b 0 0 = false := rfl
  rw [htrue, hfalse] at h
  exact Bool.noConfusion h

/-- C5 amended: for an out-of-range flow direction, `set_boundary` raises
no error and skips only the wall-placement branch — it still copies the
occupancy mask into the boundary mask, imposes the supplied velocity at
the masked cells, and recomputes the cached complement. -/
theorem set_boundary_out_of_range_no_walls (s : SimBase) (occ : ℕ → ℕ → Bool)
    (bv : Fin 2 → ℕ → ℕ → ℚ) (dir : ℤ)
    (h0 : dir ≠ 0) (h1 : dir ≠ 1) (h2 : dir ≠ 2) (h3 : dir ≠ 3) :
    (s.set_boundary occ bv dir).b = occ
  ∧ (s.set_boundary occ bv dir).v
      = (fun c i j => if occ i j then bv c i j else s.v c i j)
  ∧ (s.set_boundary occ bv dir).notb = (fun i j => ! occ i j) := by
  refine ⟨?_, ?_, ?_⟩ <;> simp [SimBase.set_boundary, setBoundaryWalls, h0, h1, h2, h3]

/-- Witness for the amended C5 at the concrete out-of-range direction 5. -/
theorem set_boundary_out_of_range_no_walls_witness :
    (sampleSim.set_boundary occAll bvOne 5).b = occAll
  ∧ (sampleSim.set_boundary occAll bvOne 5).v
      = (fun c i j => if occAll i j then bvOne c i j else sampleSim.v c i j)
  ∧ (sampleSim.set_boundary occAll bvOne 5).notb = (fun i j => ! occAll i j) :=
  set_boundary_out_of_range_no_walls sampleSim occAll bvOne 5
    (by decide) (by decide) (by decide) (by decide)

/-- C7: `get_velocity_field_as_HSV` called twice in a row with the same
`power` and no intervening mutation returns identical byte buffers, and
neither call mutates anything except the cached HSV buffer — the velocity
field, boundary mask, its complement, density field, and mode are all
unchanged after each call. -/
theorem get_velocity_field_as_HSV_pure (s : SimBase) (power : ℝ) :
    ((s.get_velocity_field_as_HSV power).1.get_velocity_field_as_HSV power).2
      = (s.get_velocity_field_as_HSV power).2
  ∧ (s.get_velocity_field_as_HSV power).1.v = s.v
  ∧ (s.get_velocity_field_as_HSV power).1.b = s.b
  ∧ (s.get_velocity_field_as_HSV power).1.notb = s.notb
  ∧ (s.get_velocity_field_as_HSV power).1.d = s.d
  ∧ (s.get_velocity_field_as_HSV power).1.mode = s.mode
  ∧ ((s.get_velocity_field_as_HSV power).1.get_velocity_field_as_HSV power).1.v = s.v
  ∧ ((s.get_velocity_field_as_HSV power).1.get_velocity_field_as_HSV power).1.b = s.b
  ∧ ((s.get_velocity_field_as_HSV power).1.get_velocity_field_as_HSV power).1.notb = s.notb
  ∧ ((s.get_velocity_field_as_HSV power).1.get_velocity_field_as_HSV power).1.d = s.d
  ∧ ((s.get_velocity_field_as_HSV power).1.get_velocity_field_as_HSV power).1.mode
      = s.mode := by
  refine ⟨?_, rfl, rfl, rfl, rfl, rfl, rfl, rfl, rfl, rfl, rfl⟩
  funext c i j
  by_cases hc0 : c = 0
  · simp [SimBase.get_velocity_field_as_HSV, hc0]
  · by_cases hc2 : c = 2
    · simp [SimBase.get_velocity_field_as_HSV, hc0, hc2]
    · simp [SimBase.get_velocity_field_as_HSV, hc0, hc2]

/-- C9 counterexample: constructing a `CycleOption` with an empty option
list does not fail — `CycleOption.__init__` performs no validation — and
the failure (Python's `ZeroDivisionError` from `% len(options)`) only
occurs later, at the first `poll_for_key` with the matching key. -/
theorem cycle_option_empty_counterexample :
    CycleOption.init "Mode" 'm' [] 0 ≠ none
  ∧ (CycleOption.init "Mode" 'm' [] 0).bind
      (fun o => o.poll_for_key 'm'.toNat) = none := by
  constructor
  · intro h
    exact Option.noConfusion h
  · simp [CycleOption.init, CycleOption.poll_for_key]

/-- C9 amended: `RangeOption` construction with a key list whose length
is not two fails immediately with a validation error (the source's
`assert len(keys) == 2`); `CycleOption` construction never validates and
always succeeds, even with an empty option list, for which the failure (a
division by zero) is deferred to the first `poll_for_key` call with the
matching key. -/
theorem option_construction_validation :
    (∀ (name : String) (keys : List Char) (range : List ℚ) (step current : ℚ),
        keys.length ≠ 2 → RangeOption.init name keys range step current = none)
  ∧ (∀ (name : String) (key : Char) (options : List String) (current : ℤ),
        CycleOption.init name key options current = some ⟨name, key, current, options⟩)
  ∧ (∀ (name : String) (key : Char) (current : ℤ),
        (CycleOption.init name key [] current).bind
          (fun o => o.poll_for_key key.toNat) = none) := by
  refine ⟨?_, ?_, ?_⟩
  · intro name keys range step current h
    rcases keys with - | ⟨k0, keys⟩
    · rfl
    rcases keys with - | ⟨k1, keys⟩
    · rfl
    rcases keys with - | ⟨k2, keys⟩
    · exact absurd rfl h
    · rfl
  · intro name key options current
    rfl
  · intro name key current
    simp [CycleOption.init, CycleOption.poll_for_key]

/-- Witness for the amended C9 at concrete inputs: an empty key list is
rejected at `RangeOption` construction; an empty option list is accepted
at `CycleOption` construction and the matching-key poll then fails. -/
theorem option_construction_validation_witness :
    RangeOption.init "Speed" [] [] 1 0 = none
  ∧ CycleOption.init "Mode" 'm' [] 0 = some ⟨"Mode", 'm', 0, []⟩
  ∧ (CycleOption.init "Mode" 'm' [] 0).bind
      (fun o => o.poll_for_key 'm'.toNat) = none :=
  ⟨option_construction_validation.1 "Speed" [] [] 1 0 (by decide),
   option_construction_validation.2.1 "Mode" 'm' [] 0,
   option_construction_validation.2.2 "Mode" 'm' 0⟩
